import Mathlib

/-
Verification of the LED animation playback engine (animation.c) and its
collaborators (led.c / led.h / rgbled.c).

The engine is a byte-code virtual machine: driven by elapsed wall-clock
time it selects the current instruction of the selected animation and
applies an opcode-encoded transformation to two brightness vectors
(`gau8LEDBrightness`, 7 channels, and `gau8RGBLEDs`, 4 channels).

Shallow embedding conventions:
  * U8 values are `Nat` kept below 256 by explicit `% 256`;
    U16 values are `Nat` kept below 65536 by explicit `% 65536`.
  * The cast `(I8)x` of a U8 is `toI8`.
  * The global mutable variables of animation.c/led.c/rgbled.c are the
    fields of `AnimState`.
  * Out-of-bounds instruction fetches (which the C source can perform on
    the RGB timeline, see `rgbSection`) are modelled by `Option`:
    a fetch outside the instruction array yields `none`.
-/

/-- LEDS_NUM from led.h: number of LEDs in the linear bank. -/
def LEDS_NUM : Nat := 7

/-- NUM_RGBLED_COLORS from rgbled.h: number of channels of the RGB LED
(rgbled.c indexes gau8RGBLEDs[0..3]). -/
def NUM_RGBLED_COLORS : Nat := 4

/-- RIGHT_LEDS_START from animation.c: index of the first LED on the right
side of the board. -/
def RIGHT_LEDS_START : Nat := 6

/-- 16-bit wrapping addition (U16 `+=`). -/
def add16 (a b : Nat) : Nat := (a + b) % 65536

/-- 16-bit wrapping subtraction (U16 `-=`): for `a, b < 65536` this is
`(a + 65536 - b) % 65536`. -/
def sub16 (a b : Nat) : Nat := (a % 65536 + (65536 - b % 65536)) % 65536

/-- The C cast `(I8)v` of a U8 value `v < 256`: two's-complement signed
reinterpretation. -/
def toI8 (v : Nat) : Int := if v < 128 then (v : Int) else (v : Int) - 256

/-- `U8 += I8` with 8-bit wraparound: the result is again a U8. -/
def u8AddI8 (v : Nat) (c : Int) : Nat := (((v : Int) + c) % 256).toNat

/-- SaturateBrightness (animation.c lines 314-328): clamps the pointed-to
U8 brightness variable into [0, 15] using a signed reinterpretation, and
returns the signed amount removed.  Result: (new value, returned excess). -/
def SaturateBrightness (v : Nat) : Nat × Int :=
  if 128 ≤ v then (0, (v : Int) - 256)        -- (I8)v < 0
  else if 15 < v then (15, (v : Int) - 15)    -- (I8)v > 15
  else (v, 0)

/-- One channel of the ADD opcode (animation.c lines 411-417 / 661-667):
`led += operand` in U8 arithmetic, then `if (led > 15u) led = 0`. -/
def addChannel (l b : Nat) : Nat :=
  if 15 < (l + b) % 256 then 0 else (l + b) % 256

/-- The ADD opcode applied elementwise (`bright` is the instruction's
brightness operand vector, `led` the current brightness vector). -/
def addOperation (bright led : List Nat) : List Nat :=
  List.zipWith addChannel led bright

/-- One channel of the DIV opcode (animation.c lines 586-593 / 702-709):
divide by the operand unless it is zero. -/
def divChannel (l b : Nat) : Nat := if b = 0 then l else l / b

/-- The DIV opcode applied elementwise. -/
def divOperation (bright led : List Nat) : List Nat :=
  List.zipWith divChannel led bright

/-- The RSHIFT opcode (animation.c lines 421-429): rotate the linear bank
clockwise -- the last element moves to the front. -/
def rshiftOp (led : List Nat) : List Nat :=
  match led with
  | [] => []
  | _ :: _ => led.getLastD 0 :: led.dropLast

/-- The LSHIFT opcode (animation.c lines 431-439): rotate the linear bank
anticlockwise -- the first element moves to the back. -/
def lshiftOp (led : List Nat) : List Nat :=
  match led with
  | [] => []
  | x :: rest => rest ++ [x]

/-- `led[i] += c` (U8 plus signed I8) on a brightness list. -/
def addAt (led : List Nat) (i : Nat) (c : Int) : List Nat :=
  led.set i (u8AddI8 (led.getD i 0) c)

/-- `SaturateBrightness(&led[i])` discarding the returned excess. -/
def satAt (led : List Nat) (i : Nat) : List Nat :=
  led.set i (SaturateBrightness (led.getD i 0)).1

/-- `led[dst] += SaturateBrightness(&led[src])`: saturate channel `src`
and carry the signed excess into channel `dst`. -/
def satCarry (led : List Nat) (src dst : Nat) : List Nat :=
  let p := SaturateBrightness (led.getD src 0)
  let led1 := led.set src p.1
  led1.set dst (u8AddI8 (led1.getD dst 0) p.2)

/-- The USOURCE opcode (animation.c lines 524-552).  Left side: for
`u8Index = 0..RIGHT_LEDS_START-2` add the signed operand to the channel,
then cascade saturation excess upward (`j -> j+1`) for
`j = u8Index..RIGHT_LEDS_START-2`; channel `RIGHT_LEDS_START-1` = 5 then
absorbs its operand and is saturated with the excess discarded.  The right
side loop `for (u8Index = LEDS_NUM-1; u8Index > RIGHT_LEDS_START; ...)`
has no iterations because `LEDS_NUM - 1 = RIGHT_LEDS_START = 6`; channel 6
absorbs its operand and is saturated. -/
def usourceOp (bright led : List Nat) : List Nat :=
  let led := (List.range 5).foldl
    (fun acc i =>
      let acc := addAt acc i (toI8 (bright.getD i 0))
      (List.range' i (5 - i)).foldl (fun a j => satCarry a j (j + 1)) acc)
    led
  let led := addAt led 5 (toI8 (bright.getD 5 0))
  let led := satAt led 5
  let led := addAt led 6 (toI8 (bright.getD 6 0))
  satAt led 6

/-- The DSOURCE opcode (animation.c lines 554-582), mirror of `usourceOp`.
Left side: for `u8Index = RIGHT_LEDS_START-1 = 5` down to 1 add the signed
operand, cascading excess downward (`j -> j-1`) for `j = u8Index` down
to 1; channel 0 then absorbs its operand and is saturated.  The right side
loop has no iterations (`RIGHT_LEDS_START = LEDS_NUM - 1`); channel 6
absorbs its operand and is saturated. -/
def dsourceOp (bright led : List Nat) : List Nat :=
  let led := [5, 4, 3, 2, 1].foldl
    (fun acc i =>
      let acc := addAt acc i (toI8 (bright.getD i 0))
      (List.range' 1 i).reverse.foldl (fun a j => satCarry a j (j - 1)) acc)
    led
  let led := addAt led 0 (toI8 (bright.getD 0 0))
  let led := satAt led 0
  let led := addAt led 6 (toI8 (bright.getD 6 0))
  satAt led 6

/-- S_ANIMATION_INSTRUCTION_NORMAL: one timed instruction of the linear
bank timeline.  `bright` holds the 7 U8 operand bytes
(au8LEDBrightness; negative C initializers appear as their two's-complement
U8 value, e.g. -3 is 253). -/
structure InstrN where
  timing : Nat        -- u16TimingMs
  bright : List Nat   -- au8LEDBrightness[LEDS_NUM]
  opcode : Nat        -- u8AnimationOpcode
  operand : Nat       -- u8AnimationOperand
deriving DecidableEq, Repr

/-- S_ANIMATION_INSTRUCTION_RGB: one timed instruction of the RGB LED
timeline (4 operand bytes). -/
structure InstrR where
  timing : Nat        -- u16TimingMs
  bright : List Nat   -- au8RGBLEDBrightness[NUM_RGBLED_COLORS]
  opcode : Nat        -- u8AnimationOpcode
  operand : Nat       -- u8AnimationOperand
deriving DecidableEq, Repr

/-- S_ANIMATION: the two instruction timelines of one animation.  The C
struct stores each length separately, but the lengths are always computed
as sizeof(array)/sizeof(element), i.e. the list lengths. -/
structure Animation where
  instrN : List InstrN   -- psInstructionsNormal, length u8AnimationLengthNormal
  instrR : List InstrR   -- psInstructionsRGB, length u8AnimationLengthRGB
deriving DecidableEq, Repr

/-- The engine's mutable state: the global variables of animation.c
together with the two brightness vectors (led.c / rgbled.c) and the
persisted animation index (persist.h). -/
structure AnimState where
  led : List Nat          -- gau8LEDBrightness[LEDS_NUM]
  rgb : List Nat          -- gau8RGBLEDs[NUM_RGBLED_COLORS]
  normalTimer : Nat       -- gu16NormalTimer
  rgbTimer : Nat          -- gu16RGBTimer
  lastCall : Nat          -- gu16LastCall
  lastState : Nat         -- u8LastState
  repCounter : Nat        -- u8RepetitionCounter
  lastStateRGB : Nat      -- u8LastStateRGB
  repCounterRGB : Nat     -- u8RepetitionCounterRGB
  animIndex : Nat         -- gsPersistentData.u8AnimationIndex
deriving DecidableEq, Repr

/-- The composite non-LOAD opcode effect on the linear bank
(animation.c lines 406-594): the branches ADD, RSHIFT, LSHIFT, USOURCE,
DSOURCE, DIV are applied in this fixed order, each one only when its
opcode bit is set (ADD=0x01, RSHIFT=0x02, LSHIFT=0x04, DIV=0x10,
USOURCE=0x20, DSOURCE=0x40). -/
def applyNormalOpcode (instr : InstrN) (led : List Nat) : List Nat :=
  let led := if instr.opcode &&& 1 ≠ 0 then addOperation instr.bright led else led
  let led := if instr.opcode &&& 2 ≠ 0 then rshiftOp led else led
  let led := if instr.opcode &&& 4 ≠ 0 then lshiftOp led else led
  let led := if instr.opcode &&& 32 ≠ 0 then usourceOp instr.bright led else led
  let led := if instr.opcode &&& 64 ≠ 0 then dsourceOp instr.bright led else led
  if instr.opcode &&& 16 ≠ 0 then divOperation instr.bright led else led

/-- The composite non-LOAD opcode effect on the RGB LED (animation.c lines
656-710): only ADD and DIV act; the RSHIFT, LSHIFT, USOURCE and DSOURCE
branches are "Not implemented" (empty) in the source. -/
def applyRGBOpcode (instr : InstrR) (rgb : List Nat) : List Nat :=
  let rgb := if instr.opcode &&& 1 ≠ 0 then addOperation instr.bright rgb else rgb
  if instr.opcode &&& 16 ≠ 0 then divOperation instr.bright rgb else rgb

/-- The instruction-selection loop (animation.c lines 380-387 and
629-636): starting from accumulator `acc` (u16StateTimer, U16 wrapping
sum), return the offset of the first instruction whose cumulative duration
exceeds `timer`; returns the number of remaining instructions (i.e. the
timeline length when started with `acc = 0`) if none does. -/
def selectState (durs : List Nat) (timer acc : Nat) : Nat :=
  match durs with
  | [] => 0
  | d :: rest =>
      let acc1 := add16 acc d
      if timer < acc1 then 0 else selectState rest timer acc1 + 1

/-- The synchronized timer increment (animation.c lines 366-370): both
timeline timers advance by the same delta. -/
def timerIncrement (d : Nat) (s : AnimState) : AnimState :=
  { s with normalTimer := add16 s.normalTimer d,
           rgbTimer := add16 s.rgbTimer d }

/-- The "next instruction" block for the normal LEDs (animation.c lines
397-624): when the current instruction index `k` differs from u8LastState,
fetch instruction `k` and apply its opcode -- a bare LOAD copies the
operand vector, any other opcode runs the composite effect followed by the
REPEAT bookkeeping (lines 595-622).  A fetch outside the instruction list
is `none`. -/
def normalApply (a : Animation) (k : Nat) (s1 : AnimState) : Option AnimState :=
  if s1.lastState = k then some s1
  else
    (a.instrN[k]?).map fun instr =>
      if instr.opcode = 0 then        -- LOAD
        { s1 with led := instr.bright, lastState := k }
      else
        let led1 := applyNormalOpcode instr s1.led
        if instr.opcode &&& 128 ≠ 0 then    -- REPEAT
          if s1.repCounter = 0 then
            { s1 with led := led1, repCounter := instr.operand,
                      normalTimer := sub16 s1.normalTimer instr.timing }
          else if s1.repCounter - 1 ≠ 0 then
            { s1 with led := led1, repCounter := s1.repCounter - 1,
                      normalTimer := sub16 s1.normalTimer instr.timing }
          else
            { s1 with led := led1, repCounter := 0, lastState := k }
        else
          { s1 with led := led1, lastState := k }

/-- The normal-LED block of Animation_Cycle (animation.c lines 378-624):
instruction selection, restart on exhaustion -- which zeroes BOTH
gu16NormalTimer and gu16RGBTimer (lines 392-395) -- and then the
"next instruction" application. -/
def normalSection (a : Animation) (s : AnimState) : Option AnimState :=
  let k0 := selectState (a.instrN.map (fun i => i.timing)) s.normalTimer 0
  if a.instrN.length ≤ k0 then
    normalApply a 0 { s with normalTimer := 0, rgbTimer := 0 }
  else
    normalApply a k0 s

/-- The "next instruction" block for the RGB LED (animation.c lines
647-740), mirroring `normalApply` on the RGB state variables. -/
def rgbApply (a : Animation) (k : Nat) (s1 : AnimState) : Option AnimState :=
  if s1.lastStateRGB = k then some s1
  else
    (a.instrR[k]?).map fun instr =>
      if instr.opcode = 0 then        -- LOAD
        { s1 with rgb := instr.bright, lastStateRGB := k }
      else
        let rgb1 := applyRGBOpcode instr s1.rgb
        if instr.opcode &&& 128 ≠ 0 then    -- REPEAT
          if s1.repCounterRGB = 0 then
            { s1 with rgb := rgb1, repCounterRGB := instr.operand,
                      rgbTimer := sub16 s1.rgbTimer instr.timing }
          else if s1.repCounterRGB - 1 ≠ 0 then
            { s1 with rgb := rgb1, repCounterRGB := s1.repCounterRGB - 1,
                      rgbTimer := sub16 s1.rgbTimer instr.timing }
          else
            { s1 with rgb := rgb1, repCounterRGB := 0, lastStateRGB := k }
        else
          { s1 with rgb := rgb1, lastStateRGB := k }

/-- The RGB block of Animation_Cycle (animation.c lines 626-740): same
structure as `normalSection` except that the restart-on-exhaustion block
is commented out in the source (lines 637-646), so on exhaustion the
selected index equals the timeline length and the instruction fetch
`psInstructionsRGB[u8AnimationLengthRGB]` is out of bounds -- modelled as
`none` inside `rgbApply`. -/
def rgbSection (a : Animation) (s : AnimState) : Option AnimState :=
  rgbApply a (selectState (a.instrR.map (fun i => i.timing)) s.rgbTimer 0) s

/-- The defensive index clamp of Animation_Cycle (animation.c lines
372-376): an out-of-range persisted animation index is overwritten
with 0. -/
def clampIndex (n : Nat) (s : AnimState) : AnimState :=
  if n ≤ s.animIndex then { s with animIndex := 0 } else s

/-- The body of an effective (nonzero-delta) Animation_Cycle call after
the timer increment and index clamp: fetch the selected animation and run
the normal block then the RGB block, finally recording the timestamp
(line 742). -/
def cycleBody (anims : List Animation) (now : Nat) (s0 : AnimState) :
    Option AnimState :=
  (anims[s0.animIndex]?).bind fun a =>
    (normalSection a s0).bind fun s1 =>
      (rgbSection a s1).map fun s2 => { s2 with lastCall := now }

/-- Animation_Cycle (animation.c lines 353-744), parametric in the
animation catalog `anims` (the C code reads the global table
gasAnimations).  A call with `now` equal to the stored gu16LastCall does
nothing.  Otherwise both timers are incremented by the 16-bit delta, an
out-of-range persisted animation index is clamped to 0, and the two
timeline blocks run in order.  `none` models an out-of-bounds instruction
fetch. -/
def Animation_Cycle (anims : List Animation) (now : Nat) (s : AnimState) :
    Option AnimState :=
  if now = s.lastCall then some s
  else
    cycleBody anims now
      (clampIndex anims.length (timerIncrement (sub16 now s.lastCall) s))

/-- NUM_ANIMATIONS: the animation catalog below has exactly 8 entries
(the initializer list of gasAnimations in animation.c; animation.h itself
is not part of the sources, but the table is fully initialized, fixing the
count). -/
def NUM_ANIMATIONS : Nat := 8

/-- Animation_Set (animation.c lines 753-767): an in-range index is stored
in the persistent data and all playback state is reset (both timers to 0,
both last-state sentinels to 0xFF, both repetition counters to 0); an
out-of-range index leaves everything unchanged. -/
def Animation_Set (idx : Nat) (s : AnimState) : AnimState :=
  if idx < NUM_ANIMATIONS then
    { s with animIndex := idx,
             normalTimer := 0, rgbTimer := 0,
             lastState := 255, repCounter := 0,
             lastStateRGB := 255, repCounterRGB := 0 }
  else s

/-- The engine state right after firmware startup: LED_Init and
RGBLED_Init zero the brightness vectors, the static initializers of
animation.c set u8LastState = u8LastStateRGB = 0xFF and both repetition
counters to 0, and Animation_Init zeroes both timers and records the
startup timestamp `t`.  The persisted animation index `idx` is whatever
persistence loaded. -/
def initState (t idx : Nat) : AnimState :=
  { led := List.replicate 7 0, rgb := List.replicate 4 0,
    normalTimer := 0, rgbTimer := 0, lastCall := t,
    lastState := 255, repCounter := 0,
    lastStateRGB := 255, repCounterRGB := 0,
    animIndex := idx }

/-! ### The shipped animation catalog (animation.c lines 83-288)

C initializer lists shorter than the declared array size zero-fill the
rest; the zero-filled entries appear below explicitly as
`⟨0, [0,...], 0, 0⟩`.  Negative brightness initializers are stored in U8
fields and appear as their two's-complement byte (-1 = 255, -2 = 254,
-3 = 253, -5 = 251).  Opcode values: LOAD = 0, ADD|REPEAT = 0x81 = 129. -/

/-- gasKITT[14]. -/
def gasKITT : List InstrN :=
  [ ⟨200, [ 0,  0,  0,  0,  0,  0,  0], 0, 0⟩,
    ⟨100, [ 5,  0,  0,  0,  0,  0,  0], 0, 0⟩,
    ⟨100, [10,  5,  0,  0,  0,  0,  0], 0, 0⟩,
    ⟨100, [15, 10,  5,  0,  0,  0,  0], 0, 0⟩,
    ⟨100, [10, 15, 10,  5,  0,  0,  0], 0, 0⟩,
    ⟨100, [ 5, 10, 15, 10,  5,  0,  0], 0, 0⟩,
    ⟨100, [ 0,  5, 10, 15, 10,  5,  0], 0, 0⟩,
    ⟨100, [ 0,  0,  5, 10, 15, 10,  5], 0, 0⟩,
    ⟨100, [ 0,  0,  5, 10, 10, 15, 10], 0, 0⟩,
    ⟨100, [ 0,  0,  0,  5, 10, 10, 15], 0, 0⟩,
    ⟨100, [ 0,  0,  0,  0,  5, 10, 10], 0, 0⟩,
    ⟨100, [ 0,  0,  0,  0,  0,  5, 10], 0, 0⟩,
    ⟨100, [ 0,  0,  0,  0,  0,  0,  5], 0, 0⟩,
    ⟨200, [ 0,  0,  0,  0,  0,  0,  0], 0, 0⟩ ]

/-- gasKITTRGB[6]. -/
def gasKITTRGB : List InstrR :=
  [ ⟨100, [ 0,  0,  0,  0], 0, 0⟩,
    ⟨100, [ 5,  0,  0,  0], 129, 2⟩,
    ⟨ 50, [ 0,  5,  0,  0], 129, 2⟩,
    ⟨ 50, [ 0,  0,  5,  0], 129, 2⟩,
    ⟨ 50, [ 0,  0,  0,  5], 129, 2⟩,
    ⟨750, [15, 15, 15, 15], 0, 0⟩ ]

/-- gasAnimation2[13]: 3 written initializers plus 10 zero-filled
entries. -/
def gasAnimation2 : List InstrN :=
  [ ⟨115, [  0,   0,   0,   0,   0,   0,   0], 0, 0⟩,
    ⟨115, [  3,   3,   3,   3,   3,   3,   3], 129, 4⟩,
    ⟨115, [253, 253, 253, 253, 253, 253, 253], 129, 4⟩ ]
  ++ List.replicate 10 ⟨0, [0, 0, 0, 0, 0, 0, 0], 0, 0⟩

/-- gasAnimation2RGB[6]: 3 written initializers plus 3 zero-filled
entries. -/
def gasAnimation2RGB : List InstrR :=
  [ ⟨115, [  0,   0,   0,   0], 0, 0⟩,
    ⟨115, [  3,   3,   3,   3], 129, 4⟩,
    ⟨115, [253, 253, 253, 253], 129, 4⟩ ]
  ++ List.replicate 3 ⟨0, [0, 0, 0, 0], 0, 0⟩

/-- gasAnimation3[4]. -/
def gasAnimation3 : List InstrN :=
  [ ⟨70, [ 15,  15,  15,  15,  15,  15,  15], 0, 0⟩,
    ⟨70, [255, 255, 255, 255, 255, 255, 255], 129, 14⟩,
    ⟨70, [  0,   0,   0,   0,   0,   0,   0], 0, 0⟩,
    ⟨70, [  1,   1,   1,   1,   1,   1,   1], 129, 14⟩ ]

/-- gasAnimation3RGB[4]. -/
def gasAnimation3RGB : List InstrR :=
  [ ⟨70, [ 15,  15,   0,   0], 0, 0⟩,
    ⟨70, [255, 255,   1,   1], 129, 14⟩,
    ⟨70, [  0,   0,  15,  15], 0, 0⟩,
    ⟨70, [  1,   1, 255, 255], 129, 14⟩ ]

/-- gasAnimation4[14]. -/
def gasAnimation4 : List InstrN :=
  [ ⟨125, [  0,   0,   0,   0,   0,   0,   0], 0, 0⟩,
    ⟨125, [  0,   0,   3,   0,   0,   0,   0], 0, 0⟩,
    ⟨125, [  0,   3,   6,   3,   0,   0,   0], 0, 0⟩,
    ⟨125, [  3,   6,   9,   6,   3,   0,   0], 0, 0⟩,
    ⟨125, [  6,   9,  12,   9,   6,   3,   0], 0, 0⟩,
    ⟨125, [  9,  12,  15,  12,   9,   6,   3], 0, 0⟩,
    ⟨125, [ 12,  15,  15,  15,  12,   9,   6], 0, 0⟩,
    ⟨125, [ 15,  15,  12,  15,  15,  12,   9], 0, 0⟩,
    ⟨125, [ 15,  12,   9,  12,  15,  15,  12], 0, 0⟩,
    ⟨125, [ 12,   9,   6,   9,  12,  15,  15], 0, 0⟩,
    ⟨125, [253, 253, 253, 253, 253, 253, 253], 129, 1⟩,
    ⟨125, [  3,   0,   0,   0,   3,   6,   9], 0, 0⟩,
    ⟨125, [  0,   0,   0,   0,   0,   3,   6], 0, 0⟩,
    ⟨125, [  0,   0,   0,   0,   0,   0,   3], 0, 0⟩ ]

/-- gasAnimation4RGB[10]. -/
def gasAnimation4RGB : List InstrR :=
  [ ⟨250, [  0,   0,   0,   0], 0, 0⟩,
    ⟨125, [  0,   0,   3,   0], 0, 0⟩,
    ⟨125, [  0,   3,   6,   0], 0, 0⟩,
    ⟨125, [  3,   3,   3,   2], 129, 2⟩,
    ⟨125, [ 12,  15,  15,   8], 0, 0⟩,
    ⟨125, [ 15,  15,  12,   8], 0, 0⟩,
    ⟨125, [ 15,  12,   9,   8], 0, 0⟩,
    ⟨125, [253, 253, 253, 254], 129, 2⟩,
    ⟨125, [  3,   0,   0,   0], 0, 0⟩,
    ⟨250, [  0,   0,   0,   0], 0, 0⟩ ]

/-- gasAnimation5[4]. -/
def gasAnimation5 : List InstrN :=
  [ ⟨1525, [  0,   0,   0,   0,   0,   0,   0], 0, 0⟩,
    ⟨  75, [  3,   3,   3,   3,   3,   3,   3], 129, 4⟩,
    ⟨  75, [253, 253, 253, 253, 253, 253, 253], 129, 4⟩,
    ⟨ 450, [  0,   0,   0,   0,   0,   0,   0], 0, 0⟩ ]

/-- gasAnimation5RGB[7]. -/
def gasAnimation5RGB : List InstrR :=
  [ ⟨ 75, [  0,   0,   0,   0], 0, 0⟩,
    ⟨ 75, [  3,   0,   0,   0], 129, 4⟩,
    ⟨ 75, [253,   0,   0,   0], 129, 4⟩,
    ⟨ 75, [  0,   3,   0,   0], 129, 4⟩,
    ⟨ 75, [  0, 253,   0,   0], 129, 4⟩,
    ⟨750, [  0,   0,   0,   0], 0, 0⟩,
    ⟨450, [  0,   0,  15,  15], 0, 0⟩ ]

/-- gasAnimation6[10]. -/
def gasAnimation6 : List InstrN :=
  [ ⟨120, [ 0,  0,  0,  0,  0,  0,  0], 0, 0⟩,
    ⟨120, [ 0,  0,  0,  0,  0,  0,  3], 0, 0⟩,
    ⟨120, [ 0,  0,  0,  0,  0,  3,  6], 0, 0⟩,
    ⟨120, [ 3,  0,  0,  0,  3,  6,  9], 0, 0⟩,
    ⟨120, [ 6,  3,  0,  3,  6,  9, 12], 0, 0⟩,
    ⟨120, [ 9,  6,  3,  6,  9, 12, 15], 0, 0⟩,
    ⟨120, [12,  9,  6,  9, 12, 15, 15], 0, 0⟩,
    ⟨120, [15, 12,  9, 12, 15, 15, 15], 0, 0⟩,
    ⟨120, [15, 15, 12, 15, 15, 15, 15], 0, 0⟩,
    ⟨840, [15, 15, 15, 15, 15, 15, 15], 0, 0⟩ ]

/-- gasAnimation6RGB[10]. -/
def gasAnimation6RGB : List InstrR :=
  [ ⟨120, [ 0,  0,  0,  1], 0, 0⟩,
    ⟨120, [ 0,  0,  0,  3], 0, 0⟩,
    ⟨120, [ 0,  0,  0,  3], 0, 0⟩,
    ⟨120, [ 0,  0,  3,  6], 0, 0⟩,
    ⟨120, [ 0,  0,  3,  6], 0, 0⟩,
    ⟨120, [ 0,  3,  6,  9], 0, 0⟩,
    ⟨120, [ 0,  3,  6,  9], 0, 0⟩,
    ⟨120, [ 3,  6,  9, 12], 0, 0⟩,
    ⟨120, [ 6,  9, 12, 12], 0, 0⟩,
    ⟨840, [12, 12, 12, 12], 0, 0⟩ ]

/-- gasAnimation7[7]. -/
def gasAnimation7 : List InstrN :=
  [ ⟨220, [15, 10,  5,  0,  0,  5, 10], 0, 0⟩,
    ⟨220, [10, 15, 10,  5,  0,  0,  5], 0, 0⟩,
    ⟨220, [ 5, 10, 15, 10,  5,  0,  0], 0, 0⟩,
    ⟨220, [ 0,  5, 10, 15, 10,  5,  0], 0, 0⟩,
    ⟨220, [ 0,  0,  5, 10, 15, 10,  5], 0, 0⟩,
    ⟨220, [ 5,  0,  0,  5, 10, 15, 10], 0, 0⟩,
    ⟨110, [10,  5,  0,  0,  5, 10, 15], 0, 0⟩ ]

/-- gasAnimation7RGB[6]: 5 written initializers plus 1 zero-filled
entry. -/
def gasAnimation7RGB : List InstrR :=
  [ ⟨110, [ 15,   0,   0,  15], 0, 0⟩,
    ⟨110, [  0,   5,   0, 251], 129, 2⟩,
    ⟨110, [251,   0,   5,   0], 129, 2⟩,
    ⟨110, [  0, 251,   0,   5], 129, 2⟩,
    ⟨110, [  5,   0, 251,   0], 129, 2⟩,
    ⟨  0, [  0,   0,   0,   0], 0, 0⟩ ]

/-- gasBlackness[1]. -/
def gasBlackness : List InstrN :=
  [ ⟨65535, [0, 0, 0, 0, 0, 0, 0], 0, 0⟩ ]

/-- gasBlacknessRGB[1].  NOTE: the catalog entry for the last animation
points its RGB timeline at gasBlackness (the normal-LED array)
reinterpreted as RGB instructions; byte for byte that reinterpretation
yields exactly ⟨65535, [0,0,0,0], 0, 0⟩, the same instruction as
gasBlacknessRGB, because every byte after the duration is zero. -/
def gasBlacknessRGB : List InstrR :=
  [ ⟨65535, [0, 0, 0, 0], 0, 0⟩ ]

/-- gasAnimations[NUM_ANIMATIONS] (animation.c lines 270-288). -/
def gasAnimations : List Animation :=
  [ ⟨gasKITT, gasKITTRGB⟩,
    ⟨gasAnimation2, gasAnimation2RGB⟩,
    ⟨gasAnimation3, gasAnimation3RGB⟩,
    ⟨gasAnimation4, gasAnimation4RGB⟩,
    ⟨gasAnimation5, gasAnimation5RGB⟩,
    ⟨gasAnimation6, gasAnimation6RGB⟩,
    ⟨gasAnimation7, gasAnimation7RGB⟩,
    ⟨gasBlackness, gasBlacknessRGB⟩ ]

/-! ### Auxiliary definitions for the statements -/

/-- A normal instruction is "good" when it is either a LOAD whose operand
vector is within range or the ADD|REPEAT combination 0x81; every shipped
instruction is good (`gasAnimations_good`). -/
def instrNGood (i : InstrN) : Prop :=
  (i.opcode = 0 ∧ ∀ x ∈ i.bright, x ≤ 15) ∨ i.opcode = 129

/-- RGB counterpart of `instrNGood`. -/
def instrRGood (i : InstrR) : Prop :=
  (i.opcode = 0 ∧ ∀ x ∈ i.bright, x ≤ 15) ∨ i.opcode = 129

instance (i : InstrN) : Decidable (instrNGood i) := by
  unfold instrNGood; infer_instance

instance (i : InstrR) : Decidable (instrRGood i) := by
  unfold instrRGood; infer_instance

/-- Both brightness vectors are within the 4-bit range [0, MAX_LEVEL]
with MAX_LEVEL = 15. -/
def InRange (s : AnimState) : Prop :=
  (∀ x ∈ s.led, x ≤ 15) ∧ (∀ x ∈ s.rgb, x ≤ 15)

instance (s : AnimState) : Decidable (InRange s) := by
  unfold InRange; infer_instance

/-- The engine states reachable through the public interface against the
shipped catalog: a fresh boot (`initState`, with an arbitrary startup
timestamp and an arbitrary persisted index), any completed
Animation_Cycle call, and any Animation_Set call. -/
inductive Reachable : AnimState → Prop where
  | boot (t idx : Nat) : Reachable (initState t idx)
  | cycle {s s1 : AnimState} (now : Nat) (hs : Reachable s)
      (h : Animation_Cycle gasAnimations now s = some s1) : Reachable s1
  | set {s : AnimState} (idx : Nat) (hs : Reachable s) :
      Reachable (Animation_Set idx s)

/-- Iteration of a fallible step function: `iterO f n` runs `f` `n` times,
propagating `none`. -/
def iterO {α : Type} (f : α → Option α) : Nat → α → Option α
  | 0, a => some a
  | n + 1, a => (f a).bind (iterO f n)

/-! ### Helper lemmas -/

lemma addChannel_le (l b : Nat) : addChannel l b ≤ 15 := by
  unfold addChannel; split <;> omega

lemma mem_addOperation_le {x : Nat} {b l : List Nat}
    (hx : x ∈ addOperation b l) : x ≤ 15 := by
  unfold addOperation at hx
  induction l generalizing b with
  | nil => simp at hx
  | cons lh lt ih =>
    cases b with
    | nil => simp at hx
    | cons bh bt =>
      rw [List.zipWith_cons_cons] at hx
      rcases List.mem_cons.mp hx with rfl | hx
      · exact addChannel_le _ _
      · exact ih hx

lemma repeatBit_ne_zero {n : Nat} (h : n &&& 128 ≠ 0) : n ≠ 0 := by
  intro hz; apply h; subst hz; decide

lemma applyNormalOpcode_129 {instr : InstrN} (h : instr.opcode = 129)
    (led : List Nat) :
    applyNormalOpcode instr led = addOperation instr.bright led := by
  unfold applyNormalOpcode; rw [h]; rfl

lemma applyRGBOpcode_129 {instr : InstrR} (h : instr.opcode = 129)
    (rgb : List Nat) :
    applyRGBOpcode instr rgb = addOperation instr.bright rgb := by
  unfold applyRGBOpcode; rw [h]; rfl

/-- Every instruction of the shipped catalog is a LOAD with in-range
operand vector or an ADD|REPEAT. -/
lemma gasAnimations_good :
    ∀ a ∈ gasAnimations,
      (∀ i ∈ a.instrN, instrNGood i) ∧ (∀ i ∈ a.instrR, instrRGood i) := by
  decide

lemma normalApply_frame {a : Animation} {k : Nat} {s s1 : AnimState}
    (h : normalApply a k s = some s1) :
    s1.rgb = s.rgb ∧ s1.animIndex = s.animIndex ∧ s1.lastCall = s.lastCall ∧
    s1.lastStateRGB = s.lastStateRGB ∧ s1.repCounterRGB = s.repCounterRGB ∧
    s1.rgbTimer = s.rgbTimer := by
  simp only [normalApply] at h
  split at h
  · cases h; exact ⟨rfl, rfl, rfl, rfl, rfl, rfl⟩
  · rw [Option.map_eq_some'] at h
    obtain ⟨instr, hget, heq⟩ := h
    repeat' split at heq
    all_goals (cases heq; exact ⟨rfl, rfl, rfl, rfl, rfl, rfl⟩)

lemma rgbApply_frame {a : Animation} {k : Nat} {s s1 : AnimState}
    (h : rgbApply a k s = some s1) :
    s1.led = s.led ∧ s1.animIndex = s.animIndex ∧ s1.lastCall = s.lastCall ∧
    s1.lastState = s.lastState ∧ s1.repCounter = s.repCounter ∧
    s1.normalTimer = s.normalTimer := by
  simp only [rgbApply] at h
  split at h
  · cases h; exact ⟨rfl, rfl, rfl, rfl, rfl, rfl⟩
  · rw [Option.map_eq_some'] at h
    obtain ⟨instr, hget, heq⟩ := h
    repeat' split at heq
    all_goals (cases heq; exact ⟨rfl, rfl, rfl, rfl, rfl, rfl⟩)

lemma normalApply_led {a : Animation} {k : Nat} {s s1 : AnimState}
    (hg : ∀ i ∈ a.instrN, instrNGood i)
    (h : normalApply a k s = some s1)
    (hled : ∀ x ∈ s.led, x ≤ 15) : ∀ x ∈ s1.led, x ≤ 15 := by
  simp only [normalApply] at h
  split at h
  · cases h; exact hled
  · rw [Option.map_eq_some'] at h
    obtain ⟨instr, hget, heq⟩ := h
    rcases hg instr (List.getElem?_mem hget) with ⟨h0, hb⟩ | h129
    · rw [if_pos h0] at heq; cases heq; exact hb
    · have hne : instr.opcode ≠ 0 := by rw [h129]; decide
      rw [if_neg hne, applyNormalOpcode_129 h129] at heq
      repeat' split at heq
      all_goals (cases heq; intro x hx; exact mem_addOperation_le hx)

lemma rgbApply_rgb {a : Animation} {k : Nat} {s s1 : AnimState}
    (hg : ∀ i ∈ a.instrR, instrRGood i)
    (h : rgbApply a k s = some s1)
    (hrgb : ∀ x ∈ s.rgb, x ≤ 15) : ∀ x ∈ s1.rgb, x ≤ 15 := by
  simp only [rgbApply] at h
  split at h
  · cases h; exact hrgb
  · rw [Option.map_eq_some'] at h
    obtain ⟨instr, hget, heq⟩ := h
    rcases hg instr (List.getElem?_mem hget) with ⟨h0, hb⟩ | h129
    · rw [if_pos h0] at heq; cases heq; exact hb
    · have hne : instr.opcode ≠ 0 := by rw [h129]; decide
      rw [if_neg hne, applyRGBOpcode_129 h129] at heq
      repeat' split at heq
      all_goals (cases heq; intro x hx; exact mem_addOperation_le hx)

lemma normalSection_frame {a : Animation} {s s1 : AnimState}
    (h : normalSection a s = some s1) :
    s1.rgb = s.rgb ∧ s1.animIndex = s.animIndex ∧ s1.lastCall = s.lastCall ∧
    s1.lastStateRGB = s.lastStateRGB ∧ s1.repCounterRGB = s.repCounterRGB := by
  simp only [normalSection] at h
  split at h
  · obtain ⟨h1, h2, h3, h4, h5, _⟩ := normalApply_frame h
    exact ⟨h1, h2, h3, h4, h5⟩
  · obtain ⟨h1, h2, h3, h4, h5, _⟩ := normalApply_frame h
    exact ⟨h1, h2, h3, h4, h5⟩

lemma normalSection_led {a : Animation} {s s1 : AnimState}
    (hg : ∀ i ∈ a.instrN, instrNGood i)
    (h : normalSection a s = some s1)
    (hled : ∀ x ∈ s.led, x ≤ 15) : ∀ x ∈ s1.led, x ≤ 15 := by
  simp only [normalSection] at h
  split at h
  · exact normalApply_led hg h hled
  · exact normalApply_led hg h hled

lemma rgbSection_frame {a : Animation} {s s1 : AnimState}
    (h : rgbSection a s = some s1) :
    s1.led = s.led ∧ s1.animIndex = s.animIndex ∧ s1.lastCall = s.lastCall ∧
    s1.lastState = s.lastState ∧ s1.repCounter = s.repCounter ∧
    s1.normalTimer = s.normalTimer :=
  rgbApply_frame h

lemma rgbSection_rgb {a : Animation} {s s1 : AnimState}
    (hg : ∀ i ∈ a.instrR, instrRGood i)
    (h : rgbSection a s = some s1)
    (hrgb : ∀ x ∈ s.rgb, x ≤ 15) : ∀ x ∈ s1.rgb, x ≤ 15 :=
  rgbApply_rgb hg h hrgb

lemma clampIndex_led (n : Nat) (s : AnimState) :
    (clampIndex n s).led = s.led := by unfold clampIndex; split <;> rfl

lemma clampIndex_rgb (n : Nat) (s : AnimState) :
    (clampIndex n s).rgb = s.rgb := by unfold clampIndex; split <;> rfl

lemma clampIndex_animIndex (n : Nat) (s : AnimState) :
    (clampIndex n s).animIndex = if n ≤ s.animIndex then 0 else s.animIndex := by
  unfold clampIndex; split <;> simp_all

lemma cycleBody_lastCall {anims : List Animation} {now : Nat}
    {s0 s1 : AnimState} (h : cycleBody anims now s0 = some s1) :
    s1.lastCall = now := by
  simp only [cycleBody] at h
  rw [Option.bind_eq_some] at h
  obtain ⟨a, _, h⟩ := h
  rw [Option.bind_eq_some] at h
  obtain ⟨sA, _, h⟩ := h
  rw [Option.map_eq_some'] at h
  obtain ⟨sB, _, heq⟩ := h
  subst heq; rfl

lemma cycleBody_animIndex {anims : List Animation} {now : Nat}
    {s0 s1 : AnimState} (h : cycleBody anims now s0 = some s1) :
    s1.animIndex = s0.animIndex := by
  simp only [cycleBody] at h
  rw [Option.bind_eq_some] at h
  obtain ⟨a, _, h⟩ := h
  rw [Option.bind_eq_some] at h
  obtain ⟨sA, hA, h⟩ := h
  rw [Option.map_eq_some'] at h
  obtain ⟨sB, hB, heq⟩ := h
  subst heq
  show sB.animIndex = s0.animIndex
  rw [(rgbSection_frame hB).2.1, (normalSection_frame hA).2.1]

lemma cycleBody_range {anims : List Animation} {now : Nat}
    {s0 s1 : AnimState}
    (hg : ∀ a ∈ anims,
      (∀ i ∈ a.instrN, instrNGood i) ∧ (∀ i ∈ a.instrR, instrRGood i))
    (h : cycleBody anims now s0 = some s1)
    (hled : ∀ x ∈ s0.led, x ≤ 15) (hrgb : ∀ x ∈ s0.rgb, x ≤ 15) :
    (∀ x ∈ s1.led, x ≤ 15) ∧ (∀ x ∈ s1.rgb, x ≤ 15) := by
  simp only [cycleBody] at h
  rw [Option.bind_eq_some] at h
  obtain ⟨a, hga, h⟩ := h
  rw [Option.bind_eq_some] at h
  obtain ⟨sA, hA, h⟩ := h
  rw [Option.map_eq_some'] at h
  obtain ⟨sB, hB, heq⟩ := h
  obtain ⟨hgN, hgR⟩ := hg a (List.getElem?_mem hga)
  subst heq
  constructor
  · show ∀ x ∈ sB.led, x ≤ 15
    rw [(rgbSection_frame hB).1]
    exact normalSection_led hgN hA hled
  · show ∀ x ∈ sB.rgb, x ≤ 15
    refine rgbSection_rgb hgR hB ?_
    rw [(normalSection_frame hA).1]
    exact hrgb

lemma cycle_range {anims : List Animation} {now : Nat} {s s1 : AnimState}
    (hg : ∀ a ∈ anims,
      (∀ i ∈ a.instrN, instrNGood i) ∧ (∀ i ∈ a.instrR, instrRGood i))
    (h : Animation_Cycle anims now s = some s1)
    (hs : InRange s) : InRange s1 := by
  obtain ⟨hled, hrgb⟩ := hs
  unfold Animation_Cycle at h
  split at h
  · cases h; exact ⟨hled, hrgb⟩
  · exact cycleBody_range hg h
      (by rw [clampIndex_led]; exact hled)
      (by rw [clampIndex_rgb]; exact hrgb)

lemma reachable_inRange {s : AnimState} (hs : Reachable s) : InRange s := by
  induction hs with
  | boot t idx =>
    refine ⟨?_, ?_⟩ <;> (intro x hx; simp [initState] at hx; omega)
  | cycle now hs h ih => exact cycle_range gasAnimations_good h ih
  | set idx hs ih =>
    obtain ⟨hled, hrgb⟩ := ih
    unfold Animation_Set
    split
    · exact ⟨hled, hrgb⟩
    · exact ⟨hled, hrgb⟩

lemma cycle_lastCall {anims : List Animation} {now : Nat} {s s1 : AnimState}
    (hne : now ≠ s.lastCall)
    (h : Animation_Cycle anims now s = some s1) : s1.lastCall = now := by
  unfold Animation_Cycle at h
  rw [if_neg hne] at h
  exact cycleBody_lastCall h

/-- Characterization of `normalSection` on an exhausted timeline whose
first instruction carries no REPEAT flag: the timeline restarts at
instruction 0 with BOTH timers zeroed, and instruction 0's effect is
applied exactly when u8LastState differs from 0. -/
lemma normalSection_exhaust {a : Animation} {s : AnimState} {i0 : InstrN}
    (hget : a.instrN[0]? = some i0)
    (hnorep : i0.opcode &&& 128 = 0)
    (hex : a.instrN.length ≤
      selectState (a.instrN.map (fun i => i.timing)) s.normalTimer 0) :
    normalSection a s =
      some (if s.lastState = 0 then { s with normalTimer := 0, rgbTimer := 0 }
        else if i0.opcode = 0 then
          { s with normalTimer := 0, rgbTimer := 0,
                   led := i0.bright, lastState := 0 }
        else
          { s with normalTimer := 0, rgbTimer := 0,
                   led := applyNormalOpcode i0 s.led, lastState := 0 }) := by
  simp only [normalSection]
  rw [if_pos hex]
  unfold normalApply
  by_cases hl : s.lastState = 0
  · rw [if_pos
      (show ({s with normalTimer := 0, rgbTimer := 0} : AnimState).lastState
          = 0 from hl),
      if_pos hl]
  · rw [if_neg
      (show ¬({s with normalTimer := 0, rgbTimer := 0} : AnimState).lastState
          = 0 from hl),
      if_neg hl, hget]
    simp only [Option.map_some']
    by_cases hz : i0.opcode = 0
    · rw [if_pos hz, if_pos hz]
    · rw [if_neg hz, if_neg hz, if_neg (fun hc => hc hnorep)]

/-! ### Claim theorems -/

/-- C1: for every reachable engine state and the shipped animation catalog
(whose LOAD operand vectors all lie within [0, 15], `gasAnimations_good`),
after any Animation_Cycle call that returns (the RGB out-of-bounds fetch
path is modelled as `none` and has no return value to observe), every
element of gau8LEDBrightness (7 channels) and gau8RGBLEDs (4 channels)
lies in [0, MAX_LEVEL] = [0, 15]. -/
theorem anim_C1 {s s1 : AnimState} (now : Nat) (hs : Reachable s)
    (h : Animation_Cycle gasAnimations now s = some s1) : InRange s1 :=
  cycle_range gasAnimations_good h (reachable_inRange hs)

theorem anim_C1_witness :
    InRange { led := [0, 0, 0, 0, 0, 0, 0], rgb := [0, 0, 0, 0],
              normalTimer := 1, rgbTimer := 1, lastCall := 1,
              lastState := 0, repCounter := 0,
              lastStateRGB := 0, repCounterRGB := 0, animIndex := 0 } :=
  anim_C1 1 (Reachable.boot 0 0) (by rfl)

/-- C4 (code bug): from a freshly booted state on animation 0 (KITT), a
single Animation_Cycle call at time 1300 exhausts the RGB timeline (the
six RGB instruction durations sum to 1100 and the commented-out restart
block does not run), so the code fetches psInstructionsRGB[6] -- one past
the end of the 6-entry array.  The claim says the engine would hold at
the last selectable index 5; the code instead reads out of bounds, which
the embedding reports as `none`. -/
theorem anim_C4_oob :
    Animation_Cycle gasAnimations 1300 (initState 0 0) = none := by rfl

/-- C6: the ADD opcode adds the signed operand (stored as its
two's-complement U8 byte) in 8-bit arithmetic and resets the channel to
exactly 0 -- never 15 -- whenever the signed sum falls outside [0, 15]
(the unsigned-range containment test `> 15u` also catches negative sums,
which wrap above 15); in particular value 14 with operand +5 yields 0. -/
theorem anim_C6 :
    (∀ (l : Nat) (c : Int), l ≤ 15 → -128 ≤ c → c < 128 →
       addChannel l ((c % 256).toNat) =
         if 0 ≤ (l : Int) + c ∧ (l : Int) + c ≤ 15
           then ((l : Int) + c).toNat else 0) ∧
    addChannel 14 5 = 0 := by
  refine ⟨?_, by decide⟩
  intro l c hl hc1 hc2
  unfold addChannel
  have hn : ((c % 256).toNat : Int) = c ∨ ((c % 256).toNat : Int) = c + 256 := by
    omega
  rcases hn with hn | hn <;> split_ifs <;> omega

theorem anim_C6_witness :
    (addChannel 14 (((5 : Int) % 256).toNat) =
      if 0 ≤ (14 : Int) + 5 ∧ (14 : Int) + 5 ≤ 15
        then ((14 : Int) + 5).toNat else 0) ∧
    (addChannel 2 (((-3 : Int) % 256).toNat) =
      if 0 ≤ (2 : Int) + (-3) ∧ (2 : Int) + (-3) ≤ 15
        then ((2 : Int) + (-3)).toNat else 0) ∧
    addChannel 14 5 = 0 :=
  ⟨anim_C6.1 14 5 (by decide) (by decide) (by decide),
   anim_C6.1 2 (-3) (by decide) (by decide) (by decide),
   anim_C6.2⟩

/-- C7: a zero-delta Animation_Cycle call (current time equal to the
stored gu16LastCall) changes nothing, so a tick is idempotent: after any
call that returns `s1`, calling again with the same time is a no-op. -/
theorem anim_C7 {anims : List Animation} {now : Nat} {s s1 : AnimState}
    (h : Animation_Cycle anims now s = some s1) :
    Animation_Cycle anims now s1 = some s1 ∧
    Animation_Cycle anims s.lastCall s = some s := by
  constructor
  · by_cases hz : now = s.lastCall
    · unfold Animation_Cycle at h
      rw [if_pos hz] at h
      cases h
      unfold Animation_Cycle
      rw [if_pos hz]
    · have hlc := cycle_lastCall hz h
      unfold Animation_Cycle
      rw [if_pos hlc.symm]
  · unfold Animation_Cycle
    rw [if_pos rfl]

theorem anim_C7_witness :
    Animation_Cycle gasAnimations 6
        { led := [15, 15, 15, 15, 15, 15, 15], rgb := [15, 15, 0, 0],
          normalTimer := 1, rgbTimer := 1, lastCall := 6,
          lastState := 0, repCounter := 0,
          lastStateRGB := 0, repCounterRGB := 0, animIndex := 2 } =
      some { led := [15, 15, 15, 15, 15, 15, 15], rgb := [15, 15, 0, 0],
             normalTimer := 1, rgbTimer := 1, lastCall := 6,
             lastState := 0, repCounter := 0,
             lastStateRGB := 0, repCounterRGB := 0, animIndex := 2 } ∧
    Animation_Cycle gasAnimations (initState 5 2).lastCall (initState 5 2) =
      some (initState 5 2) :=
  @anim_C7 gasAnimations 6 (initState 5 2)
    ⟨[15, 15, 15, 15, 15, 15, 15], [15, 15, 0, 0], 1, 1, 6, 0, 0, 0, 0, 2⟩
    (by rfl)

/-- C8: Animation_Set with an index at or above NUM_ANIMATIONS is a
silently ignored no-op; with an in-range index it stores the index and
resets both timers to 0, both last-instruction sentinels to 0xFF = 255,
and both repetition counters to 0. -/
theorem anim_C8 :
    (∀ (idx : Nat) (s : AnimState), NUM_ANIMATIONS ≤ idx →
       Animation_Set idx s = s) ∧
    (∀ (idx : Nat) (s : AnimState), idx < NUM_ANIMATIONS →
       Animation_Set idx s =
         { s with animIndex := idx, normalTimer := 0, rgbTimer := 0,
                  lastState := 255, repCounter := 0,
                  lastStateRGB := 255, repCounterRGB := 0 }) := by
  constructor
  · intro idx s h
    unfold Animation_Set
    rw [if_neg (by omega)]
  · intro idx s h
    unfold Animation_Set
    rw [if_pos h]

theorem anim_C8_witness :
    Animation_Set 9 (initState 3 4) = initState 3 4 ∧
    Animation_Set 2 (initState 3 4) =
      { initState 3 4 with animIndex := 2, normalTimer := 0, rgbTimer := 0,
                           lastState := 255, repCounter := 0,
                           lastStateRGB := 255, repCounterRGB := 0 } :=
  ⟨anim_C8.1 9 (initState 3 4) (by decide),
   anim_C8.2 2 (initState 3 4) (by decide)⟩

/-- C9 (counterexample): Animation_Cycle DOES write the persisted
Selected Animation Index: starting from a booted state whose persisted
index is NUM_ANIMATIONS = 8 (out of range), one effective tick clamps the
stored index to 0 (animation.c lines 372-376), contradicting the claim
that tick never modifies it. -/
theorem anim_C9_cex :
    (initState 0 8).animIndex = NUM_ANIMATIONS ∧
    (Animation_Cycle gasAnimations 1 (initState 0 8)).map
        (fun s => s.animIndex) = some 0 := by
  exact ⟨rfl, by rfl⟩

/-- C9 (amended): an effective tick clamps an out-of-range persisted
index to 0 and writes it back; for an in-range index Animation_Cycle
never modifies the index, and Animation_Set writes it only when the new
index is in range. -/
theorem anim_C9_amended :
    (∀ (now : Nat) (s s1 : AnimState), s.animIndex < gasAnimations.length →
       Animation_Cycle gasAnimations now s = some s1 →
       s1.animIndex = s.animIndex) ∧
    (∀ (now : Nat) (s s1 : AnimState), now ≠ s.lastCall →
       gasAnimations.length ≤ s.animIndex →
       Animation_Cycle gasAnimations now s = some s1 →
       s1.animIndex = 0) ∧
    (∀ (idx : Nat) (s : AnimState), NUM_ANIMATIONS ≤ idx →
       (Animation_Set idx s).animIndex = s.animIndex) := by
  refine ⟨?_, ?_, ?_⟩
  · intro now s s1 hlt h
    unfold Animation_Cycle at h
    split at h
    · cases h; rfl
    · rw [cycleBody_animIndex h, clampIndex_animIndex]
      have hproj :
          (timerIncrement (sub16 now s.lastCall) s).animIndex = s.animIndex :=
        rfl
      rw [hproj, if_neg (by omega)]
  · intro now s s1 hne hge h
    unfold Animation_Cycle at h
    rw [if_neg hne] at h
    rw [cycleBody_animIndex h, clampIndex_animIndex]
    have hproj :
        (timerIncrement (sub16 now s.lastCall) s).animIndex = s.animIndex :=
      rfl
    rw [hproj, if_pos hge]
  · intro idx s h
    unfold Animation_Set
    rw [if_neg (by omega)]

theorem anim_C9_amended_witness :
    ({ led := [15, 15, 15, 15, 15, 15, 15], rgb := [15, 15, 0, 0],
       normalTimer := 1, rgbTimer := 1, lastCall := 1,
       lastState := 0, repCounter := 0,
       lastStateRGB := 0, repCounterRGB := 0,
       animIndex := 2 } : AnimState).animIndex = (initState 0 2).animIndex ∧
    ({ led := [0, 0, 0, 0, 0, 0, 0], rgb := [0, 0, 0, 0],
       normalTimer := 1, rgbTimer := 1, lastCall := 1,
       lastState := 0, repCounter := 0,
       lastStateRGB := 0, repCounterRGB := 0,
       animIndex := 0 } : AnimState).animIndex = 0 ∧
    (Animation_Set 8 (initState 2 1)).animIndex = (initState 2 1).animIndex :=
  ⟨anim_C9_amended.1 1 (initState 0 2) _ (by decide) (by rfl),
   anim_C9_amended.2.1 1 (initState 0 9) _ (by decide) (by decide) (by rfl),
   anim_C9_amended.2.2 8 (initState 2 1) (by decide)⟩

/-- C10: SaturateBrightness leaves the pointed-to U8 value within
[0, 15] and returns a signed excess `r` with
`signed(b) = clamped + r` (two's-complement reading of the input);
an input already in [0, 15] is returned unchanged with excess 0. -/
theorem anim_C10 {b : Nat} (h : b < 256) :
    (SaturateBrightness b).1 ≤ 15 ∧
    toI8 b = ((SaturateBrightness b).1 : Int) + (SaturateBrightness b).2 ∧
    (b ≤ 15 → SaturateBrightness b = (b, 0)) := by
  by_cases h1 : 128 ≤ b
  · unfold SaturateBrightness toI8
    rw [if_pos h1, if_neg (show ¬b < 128 by omega)]
    refine ⟨by norm_num, by push_cast; ring, fun hb => absurd h1 (by omega)⟩
  · by_cases h2 : 15 < b
    · unfold SaturateBrightness toI8
      rw [if_neg h1, if_pos h2, if_pos (by omega)]
      refine ⟨by norm_num, by push_cast; ring, fun hb => absurd h2 (by omega)⟩
    · unfold SaturateBrightness toI8
      rw [if_neg h1, if_neg h2, if_pos (by omega)]
      exact ⟨by omega, by push_cast; ring, fun hb => rfl⟩

theorem anim_C10_witness :
    ((SaturateBrightness 200).1 ≤ 15 ∧
      toI8 200 = ((SaturateBrightness 200).1 : Int) +
        (SaturateBrightness 200).2 ∧
      (200 ≤ 15 → SaturateBrightness 200 = (200, 0))) ∧
    ((SaturateBrightness 7).1 ≤ 15 ∧
      toI8 7 = ((SaturateBrightness 7).1 : Int) + (SaturateBrightness 7).2 ∧
      (7 ≤ 15 → SaturateBrightness 7 = (7, 0))) :=
  ⟨anim_C10 (by decide), anim_C10 (by decide)⟩

/-- C3 (counterexample): the claim says a linear-bank restart leaves
gu16RGBTimer unchanged.  From a booted state on animation 1 a tick at
time 346 exhausts the 13-entry normal timeline (total duration 345 ms)
and the restart zeroes BOTH timers (animation.c lines 392-395): the
returned gu16RGBTimer is 0, not the incremented value 346 the claim
implies (no RGB REPEAT rewind runs on this tick -- the RGB instruction
applied is the LOAD at index 0). -/
theorem anim_C3_cex :
    (Animation_Cycle gasAnimations 346 (initState 0 1)).map
        (fun s => s.rgbTimer) = some 0 ∧
    (Animation_Cycle gasAnimations 346 (initState 0 1)).map
        (fun s => s.rgbTimer) ≠ some 346 :=
  ⟨by rfl, by decide⟩

/-- C3 (amended): when the linear-bank timeline is exhausted during a
tick, the restart resets BOTH elapsed-time accumulators, gu16NormalTimer
and gu16RGBTimer, to 0 (not only the linear one); stated for any
animation whose first instruction carries no REPEAT flag (true of every
shipped animation), so that no rewind is applied after the reset. -/
theorem anim_C3_amended {a : Animation} {s s1 : AnimState} {i0 : InstrN}
    (hget : a.instrN[0]? = some i0)
    (hnorep : i0.opcode &&& 128 = 0)
    (hex : a.instrN.length ≤
      selectState (a.instrN.map (fun i => i.timing)) s.normalTimer 0)
    (h : normalSection a s = some s1) :
    s1.normalTimer = 0 ∧ s1.rgbTimer = 0 := by
  rw [normalSection_exhaust hget hnorep hex] at h
  obtain rfl := Option.some.inj h
  constructor <;> (repeat' split) <;> rfl

theorem anim_C3_witness :
    ({ led := [0, 0, 0, 0, 0, 0, 0], rgb := [0, 0, 0, 0],
       normalTimer := 0, rgbTimer := 0, lastCall := 0,
       lastState := 0, repCounter := 0, lastStateRGB := 255,
       repCounterRGB := 0, animIndex := 1 } : AnimState).normalTimer = 0 ∧
    ({ led := [0, 0, 0, 0, 0, 0, 0], rgb := [0, 0, 0, 0],
       normalTimer := 0, rgbTimer := 0, lastCall := 0,
       lastState := 0, repCounter := 0, lastStateRGB := 255,
       repCounterRGB := 0, animIndex := 1 } : AnimState).rgbTimer = 0 :=
  @anim_C3_amended ⟨gasAnimation2, gasAnimation2RGB⟩
    { initState 0 1 with normalTimer := 346 }
    ⟨[0, 0, 0, 0, 0, 0, 0], [0, 0, 0, 0], 0, 0, 0, 0, 0, 255, 0, 1⟩
    ⟨115, [0, 0, 0, 0, 0, 0, 0], 0, 0⟩
    (by rfl) (by decide) (by decide) (by rfl)

/-- C5 (counterexample): the claim says the restart always re-applies the
first instruction's effect to the brightness vector.  With animation 1,
a prior state whose u8LastState is already 0 and whose brightness vector
is [5,0,0,0,0,0,0], a tick at time 346 exhausts the timeline and
restarts at instruction 0, but since u8LastState equals the restarted
index no boundary is crossed: the LOAD [0,...,0] of instruction 0 is NOT
applied and the vector stays [5,0,0,0,0,0,0]. -/
theorem anim_C5_cex :
    (Animation_Cycle gasAnimations 346
        { initState 0 1 with lastState := 0,
                             led := [5, 0, 0, 0, 0, 0, 0] }).map
      (fun s => s.led) = some [5, 0, 0, 0, 0, 0, 0] ∧
    ([5, 0, 0, 0, 0, 0, 0] : List Nat) ≠ [0, 0, 0, 0, 0, 0, 0] :=
  ⟨by rfl, by decide⟩

/-- C5 (amended): on exhaustion the linear-bank timeline restarts at
instruction 0 with gu16NormalTimer reset to 0 (for any animation whose
first instruction carries no REPEAT flag, true of every shipped
animation); the first instruction's effect is re-applied on that tick
precisely when u8LastState differs from 0 -- when u8LastState is already
0 the whole playback state is left at the bare restart. -/
theorem anim_C5_amended {a : Animation} {s s1 : AnimState} {i0 : InstrN}
    (hget : a.instrN[0]? = some i0)
    (hnorep : i0.opcode &&& 128 = 0)
    (hex : a.instrN.length ≤
      selectState (a.instrN.map (fun i => i.timing)) s.normalTimer 0)
    (h : normalSection a s = some s1) :
    s1.normalTimer = 0 ∧
    (s.lastState ≠ 0 → s1.lastState = 0 ∧
      s1.led = (if i0.opcode = 0 then i0.bright
                else applyNormalOpcode i0 s.led)) ∧
    (s.lastState = 0 → s1 = { s with normalTimer := 0, rgbTimer := 0 }) := by
  rw [normalSection_exhaust hget hnorep hex] at h
  obtain rfl := Option.some.inj h
  by_cases hl : s.lastState = 0
  · rw [if_pos hl]
    exact ⟨rfl, fun hc => absurd hl hc, fun _ => rfl⟩
  · rw [if_neg hl]
    split_ifs with hz
    · exact ⟨rfl, fun _ => ⟨rfl, rfl⟩, fun hc => absurd hc hl⟩
    · exact ⟨rfl, fun _ => ⟨rfl, rfl⟩, fun hc => absurd hc hl⟩

theorem anim_C5_witness :
    ({ led := [15, 15, 15, 15, 15, 15, 15], rgb := [0, 0, 0, 0],
       normalTimer := 0, rgbTimer := 0, lastCall := 0,
       lastState := 0, repCounter := 0, lastStateRGB := 255,
       repCounterRGB := 0, animIndex := 2 } : AnimState).normalTimer = 0 ∧
    (({ initState 0 2 with normalTimer := 280,
                           lastState := 1 } : AnimState).lastState ≠ 0 →
      ({ led := [15, 15, 15, 15, 15, 15, 15], rgb := [0, 0, 0, 0],
         normalTimer := 0, rgbTimer := 0, lastCall := 0,
         lastState := 0, repCounter := 0, lastStateRGB := 255,
         repCounterRGB := 0, animIndex := 2 } : AnimState).lastState = 0 ∧
      ({ led := [15, 15, 15, 15, 15, 15, 15], rgb := [0, 0, 0, 0],
         normalTimer := 0, rgbTimer := 0, lastCall := 0,
         lastState := 0, repCounter := 0, lastStateRGB := 255,
         repCounterRGB := 0, animIndex := 2 } : AnimState).led =
        (if (⟨70, [15, 15, 15, 15, 15, 15, 15], 0, 0⟩ : InstrN).opcode = 0
          then (⟨70, [15, 15, 15, 15, 15, 15, 15], 0, 0⟩ : InstrN).bright
          else applyNormalOpcode ⟨70, [15, 15, 15, 15, 15, 15, 15], 0, 0⟩
            ({ initState 0 2 with normalTimer := 280,
                                  lastState := 1 } : AnimState).led)) ∧
    (({ initState 0 2 with normalTimer := 280,
                           lastState := 1 } : AnimState).lastState = 0 →
      ({ led := [15, 15, 15, 15, 15, 15, 15], rgb := [0, 0, 0, 0],
         normalTimer := 0, rgbTimer := 0, lastCall := 0,
         lastState := 0, repCounter := 0, lastStateRGB := 255,
         repCounterRGB := 0, animIndex := 2 } : AnimState) =
        { ({ initState 0 2 with normalTimer := 280,
                                lastState := 1 } : AnimState) with
            normalTimer := 0, rgbTimer := 0 }) :=
  @anim_C5_amended ⟨gasAnimation3, gasAnimation3RGB⟩
    { initState 0 2 with normalTimer := 280, lastState := 1 }
    ⟨[15, 15, 15, 15, 15, 15, 15], [0, 0, 0, 0], 0, 0, 0, 0, 0, 255, 0, 2⟩
    ⟨70, [15, 15, 15, 15, 15, 15, 15], 0, 0⟩
    (by rfl) (by decide) (by decide) (by rfl)

lemma add16_lt {T d : Nat} (h : T + d < 65536) : add16 T d = T + d := by
  unfold add16; omega

lemma sub16_cancel {T d : Nat} (h : T + d < 65536) : sub16 (T + d) d = T := by
  unfold sub16; omega

lemma add16_mod_left (x y : Nat) : add16 (x % 65536) y = (x + y) % 65536 := by
  unfold add16; omega

lemma normal_repeat_tick {a : Animation} {k d T0 : Nat} {instr : InstrN}
    (hget : a.instrN[k]? = some instr)
    (hrep : instr.opcode &&& 128 ≠ 0)
    (hd : instr.timing = d)
    (hT : T0 + d < 65536)
    (hsel : selectState (a.instrN.map (fun i => i.timing)) (T0 + d) 0 = k)
    (st : AnimState)
    (hnt : st.normalTimer = T0)
    (hls : st.lastState ≠ k) :
    normalSection a (timerIncrement d st) =
      some (if st.repCounter = 0 then
              { st with led := applyNormalOpcode instr st.led,
                        rgbTimer := add16 st.rgbTimer d,
                        repCounter := instr.operand, normalTimer := T0 }
            else if st.repCounter - 1 ≠ 0 then
              { st with led := applyNormalOpcode instr st.led,
                        rgbTimer := add16 st.rgbTimer d,
                        repCounter := st.repCounter - 1, normalTimer := T0 }
            else
              { st with led := applyNormalOpcode instr st.led,
                        rgbTimer := add16 st.rgbTimer d,
                        repCounter := 0, lastState := k,
                        normalTimer := T0 + d }) := by
  have hk : k < a.instrN.length := (List.getElem?_eq_some.mp hget).1
  have hnz : instr.opcode ≠ 0 := repeatBit_ne_zero hrep
  simp only [timerIncrement, hnt, add16_lt hT, normalSection]
  rw [hsel, if_neg (by omega)]
  simp only [normalApply]
  rw [if_neg hls, hget]
  simp only [Option.map_some', if_neg hnz, if_pos hrep, hd, sub16_cancel hT]

lemma normal_repeat_tick_first {a : Animation} {k d T0 : Nat} {instr : InstrN}
    (hget : a.instrN[k]? = some instr)
    (hrep : instr.opcode &&& 128 ≠ 0)
    (hd : instr.timing = d)
    (hT : T0 + d < 65536)
    (hsel : selectState (a.instrN.map (fun i => i.timing)) (T0 + d) 0 = k)
    (st : AnimState)
    (hnt : st.normalTimer = T0)
    (hls : st.lastState ≠ k)
    (hr : st.repCounter = 0) :
    normalSection a (timerIncrement d st) =
      some { st with led := applyNormalOpcode instr st.led,
                     rgbTimer := add16 st.rgbTimer d,
                     repCounter := instr.operand, normalTimer := T0 } := by
  rw [normal_repeat_tick hget hrep hd hT hsel st hnt hls, if_pos hr]

lemma normal_repeat_tick_mid {a : Animation} {k d T0 : Nat} {instr : InstrN}
    (hget : a.instrN[k]? = some instr)
    (hrep : instr.opcode &&& 128 ≠ 0)
    (hd : instr.timing = d)
    (hT : T0 + d < 65536)
    (hsel : selectState (a.instrN.map (fun i => i.timing)) (T0 + d) 0 = k)
    (st : AnimState)
    (hnt : st.normalTimer = T0)
    (hls : st.lastState ≠ k)
    (hr : st.repCounter ≠ 0)
    (hr2 : st.repCounter - 1 ≠ 0) :
    normalSection a (timerIncrement d st) =
      some { st with led := applyNormalOpcode instr st.led,
                     rgbTimer := add16 st.rgbTimer d,
                     repCounter := st.repCounter - 1, normalTimer := T0 } := by
  rw [normal_repeat_tick hget hrep hd hT hsel st hnt hls, if_neg hr, if_pos hr2]

lemma normal_repeat_tick_last {a : Animation} {k d T0 : Nat} {instr : InstrN}
    (hget : a.instrN[k]? = some instr)
    (hrep : instr.opcode &&& 128 ≠ 0)
    (hd : instr.timing = d)
    (hT : T0 + d < 65536)
    (hsel : selectState (a.instrN.map (fun i => i.timing)) (T0 + d) 0 = k)
    (st : AnimState)
    (hnt : st.normalTimer = T0)
    (hls : st.lastState ≠ k)
    (hr : st.repCounter ≠ 0)
    (hr2 : st.repCounter - 1 = 0) :
    normalSection a (timerIncrement d st) =
      some { st with led := applyNormalOpcode instr st.led,
                     rgbTimer := add16 st.rgbTimer d,
                     repCounter := 0, lastState := k,
                     normalTimer := T0 + d } := by
  rw [normal_repeat_tick hget hrep hd hT hsel st hnt hls, if_neg hr,
      if_neg (fun hcc => hcc hr2)]

lemma iterO_succ_right {α : Type} (f : α → Option α) (n : Nat) (a : α) :
    iterO f (n + 1) a = (iterO f n a).bind f := by
  induction n generalizing a with
  | zero =>
    show (f a).bind (iterO f 0) = (some a).bind f
    cases h : f a with
    | none => simp [iterO, h]
    | some b => simp [iterO, h]
  | succ n ih =>
    show (f a).bind (iterO f (n + 1)) = ((f a).bind (iterO f n)).bind f
    cases f a with
    | none => rfl
    | some b => simpa using ih b

lemma normal_repeat_iter {a : Animation} {k N d T0 : Nat} {instr : InstrN}
    {st0 : AnimState}
    (hget : a.instrN[k]? = some instr)
    (hrep : instr.opcode &&& 128 ≠ 0)
    (hN : instr.operand = N)
    (hd : instr.timing = d)
    (hT : T0 + d < 65536)
    (hsel : selectState (a.instrN.map (fun i => i.timing)) (T0 + d) 0 = k)
    (hnt : st0.normalTimer = T0)
    (hrc : st0.repCounter = 0)
    (hls : st0.lastState ≠ k) :
    ∀ i, 1 ≤ i → i ≤ N →
      iterO (fun st => normalSection a (timerIncrement d st)) i st0 =
        some { st0 with led := (applyNormalOpcode instr)^[i] st0.led,
                        rgbTimer := (st0.rgbTimer + i * d) % 65536,
                        repCounter := N + 1 - i, normalTimer := T0 } := by
  intro i
  induction i with
  | zero => intro h1 _; exact absurd h1 (by omega)
  | succ i ih =>
    intro h1 hiN
    by_cases hi0 : i = 0
    · subst hi0
      show (normalSection a (timerIncrement d st0)).bind
          (iterO (fun st => normalSection a (timerIncrement d st)) 0) = _
      rw [normal_repeat_tick_first hget hrep hd hT hsel st0 hnt hls hrc]
      show some _ = some _
      simp only [Nat.zero_add, hN, add16, Function.iterate_one, Nat.one_mul,
        Nat.add_sub_cancel]
    · have hi1 : 1 ≤ i := by omega
      have hiN1 : i ≤ N := by omega
      rw [iterO_succ_right, ih hi1 hiN1]
      simp only [Option.some_bind]
      rw [normal_repeat_tick_mid hget hrep hd hT hsel
        { st0 with led := (applyNormalOpcode instr)^[i] st0.led,
                   rgbTimer := (st0.rgbTimer + i * d) % 65536,
                   repCounter := N + 1 - i, normalTimer := T0 }
        rfl hls (show N + 1 - i ≠ 0 by omega) (show N + 1 - i - 1 ≠ 0 by omega)]
      simp only [Function.iterate_succ_apply', add16_mod_left,
        Nat.succ_mul, ← Nat.add_assoc, Nat.sub_sub]

lemma normal_repeat_final {a : Animation} {k N d T0 : Nat} {instr : InstrN}
    {st0 : AnimState}
    (hget : a.instrN[k]? = some instr)
    (hrep : instr.opcode &&& 128 ≠ 0)
    (hN : instr.operand = N)
    (hN1 : 1 ≤ N)
    (hd : instr.timing = d)
    (hT : T0 + d < 65536)
    (hsel : selectState (a.instrN.map (fun i => i.timing)) (T0 + d) 0 = k)
    (hnt : st0.normalTimer = T0)
    (hrc : st0.repCounter = 0)
    (hls : st0.lastState ≠ k) :
    iterO (fun st => normalSection a (timerIncrement d st)) (N + 1) st0 =
      some { st0 with led := (applyNormalOpcode instr)^[N + 1] st0.led,
                      rgbTimer := (st0.rgbTimer + (N + 1) * d) % 65536,
                      repCounter := 0, lastState := k,
                      normalTimer := T0 + d } := by
  rw [iterO_succ_right,
      normal_repeat_iter hget hrep hN hd hT hsel hnt hrc hls N hN1 (le_refl N)]
  simp only [Option.some_bind]
  rw [normal_repeat_tick_last hget hrep hd hT hsel
    { st0 with led := (applyNormalOpcode instr)^[N] st0.led,
               rgbTimer := (st0.rgbTimer + N * d) % 65536,
               repCounter := N + 1 - N, normalTimer := T0 }
    rfl hls (show N + 1 - N ≠ 0 by omega) (show N + 1 - N - 1 = 0 by omega)]
  simp only [Function.iterate_succ_apply', add16_mod_left,
    Nat.succ_mul, ← Nat.add_assoc]

lemma rgb_repeat_tick {a : Animation} {k d T0 : Nat} {instr : InstrR}
    (hget : a.instrR[k]? = some instr)
    (hrep : instr.opcode &&& 128 ≠ 0)
    (hd : instr.timing = d)
    (hT : T0 + d < 65536)
    (hsel : selectState (a.instrR.map (fun i => i.timing)) (T0 + d) 0 = k)
    (st : AnimState)
    (hrt : st.rgbTimer = T0)
    (hls : st.lastStateRGB ≠ k) :
    rgbSection a (timerIncrement d st) =
      some (if st.repCounterRGB = 0 then
              { st with rgb := applyRGBOpcode instr st.rgb,
                        normalTimer := add16 st.normalTimer d,
                        repCounterRGB := instr.operand, rgbTimer := T0 }
            else if st.repCounterRGB - 1 ≠ 0 then
              { st with rgb := applyRGBOpcode instr st.rgb,
                        normalTimer := add16 st.normalTimer d,
                        repCounterRGB := st.repCounterRGB - 1, rgbTimer := T0 }
            else
              { st with rgb := applyRGBOpcode instr st.rgb,
                        normalTimer := add16 st.normalTimer d,
                        repCounterRGB := 0, lastStateRGB := k,
                        rgbTimer := T0 + d }) := by
  have hnz : instr.opcode ≠ 0 := repeatBit_ne_zero hrep
  simp only [timerIncrement, hrt, add16_lt hT, rgbSection]
  rw [hsel]
  simp only [rgbApply]
  rw [if_neg hls, hget]
  simp only [Option.map_some', if_neg hnz, if_pos hrep, hd, sub16_cancel hT]

lemma rgb_repeat_tick_first {a : Animation} {k d T0 : Nat} {instr : InstrR}
    (hget : a.instrR[k]? = some instr)
    (hrep : instr.opcode &&& 128 ≠ 0)
    (hd : instr.timing = d)
    (hT : T0 + d < 65536)
    (hsel : selectState (a.instrR.map (fun i => i.timing)) (T0 + d) 0 = k)
    (st : AnimState)
    (hrt : st.rgbTimer = T0)
    (hls : st.lastStateRGB ≠ k)
    (hr : st.repCounterRGB = 0) :
    rgbSection a (timerIncrement d st) =
      some { st with rgb := applyRGBOpcode instr st.rgb,
                     normalTimer := add16 st.normalTimer d,
                     repCounterRGB := instr.operand, rgbTimer := T0 } := by
  rw [rgb_repeat_tick hget hrep hd hT hsel st hrt hls, if_pos hr]

lemma rgb_repeat_tick_mid {a : Animation} {k d T0 : Nat} {instr : InstrR}
    (hget : a.instrR[k]? = some instr)
    (hrep : instr.opcode &&& 128 ≠ 0)
    (hd : instr.timing = d)
    (hT : T0 + d < 65536)
    (hsel : selectState (a.instrR.map (fun i => i.timing)) (T0 + d) 0 = k)
    (st : AnimState)
    (hrt : st.rgbTimer = T0)
    (hls : st.lastStateRGB ≠ k)
    (hr : st.repCounterRGB ≠ 0)
    (hr2 : st.repCounterRGB - 1 ≠ 0) :
    rgbSection a (timerIncrement d st) =
      some { st with rgb := applyRGBOpcode instr st.rgb,
                     normalTimer := add16 st.normalTimer d,
                     repCounterRGB := st.repCounterRGB - 1, rgbTimer := T0 } := by
  rw [rgb_repeat_tick hget hrep hd hT hsel st hrt hls, if_neg hr, if_pos hr2]

lemma rgb_repeat_tick_last {a : Animation} {k d T0 : Nat} {instr : InstrR}
    (hget : a.instrR[k]? = some instr)
    (hrep : instr.opcode &&& 128 ≠ 0)
    (hd : instr.timing = d)
    (hT : T0 + d < 65536)
    (hsel : selectState (a.instrR.map (fun i => i.timing)) (T0 + d) 0 = k)
    (st : AnimState)
    (hrt : st.rgbTimer = T0)
    (hls : st.lastStateRGB ≠ k)
    (hr : st.repCounterRGB ≠ 0)
    (hr2 : st.repCounterRGB - 1 = 0) :
    rgbSection a (timerIncrement d st) =
      some { st with rgb := applyRGBOpcode instr st.rgb,
                     normalTimer := add16 st.normalTimer d,
                     repCounterRGB := 0, lastStateRGB := k,
                     rgbTimer := T0 + d } := by
  rw [rgb_repeat_tick hget hrep hd hT hsel st hrt hls, if_neg hr,
      if_neg (fun hcc => hcc hr2)]

lemma rgb_repeat_iter {a : Animation} {k N d T0 : Nat} {instr : InstrR}
    {st0 : AnimState}
    (hget : a.instrR[k]? = some instr)
    (hrep : instr.opcode &&& 128 ≠ 0)
    (hN : instr.operand = N)
    (hd : instr.timing = d)
    (hT : T0 + d < 65536)
    (hsel : selectState (a.instrR.map (fun i => i.timing)) (T0 + d) 0 = k)
    (hrt : st0.rgbTimer = T0)
    (hrc : st0.repCounterRGB = 0)
    (hls : st0.lastStateRGB ≠ k) :
    ∀ i, 1 ≤ i → i ≤ N →
      iterO (fun st => rgbSection a (timerIncrement d st)) i st0 =
        some { st0 with rgb := (applyRGBOpcode instr)^[i] st0.rgb,
                        normalTimer := (st0.normalTimer + i * d) % 65536,
                        repCounterRGB := N + 1 - i, rgbTimer := T0 } := by
  intro i
  induction i with
  | zero => intro h1 _; exact absurd h1 (by omega)
  | succ i ih =>
    intro h1 hiN
    by_cases hi0 : i = 0
    · subst hi0
      show (rgbSection a (timerIncrement d st0)).bind
          (iterO (fun st => rgbSection a (timerIncrement d st)) 0) = _
      rw [rgb_repeat_tick_first hget hrep hd hT hsel st0 hrt hls hrc]
      show some _ = some _
      simp only [Nat.zero_add, hN, add16, Function.iterate_one, Nat.one_mul,
        Nat.add_sub_cancel]
    · have hi1 : 1 ≤ i := by omega
      have hiN1 : i ≤ N := by omega
      rw [iterO_succ_right, ih hi1 hiN1]
      simp only [Option.some_bind]
      rw [rgb_repeat_tick_mid hget hrep hd hT hsel
        { st0 with rgb := (applyRGBOpcode instr)^[i] st0.rgb,
                   normalTimer := (st0.normalTimer + i * d) % 65536,
                   repCounterRGB := N + 1 - i, rgbTimer := T0 }
        rfl hls (show N + 1 - i ≠ 0 by omega) (show N + 1 - i - 1 ≠ 0 by omega)]
      simp only [Function.iterate_succ_apply', add16_mod_left,
        Nat.succ_mul, ← Nat.add_assoc, Nat.sub_sub]

lemma rgb_repeat_final {a : Animation} {k N d T0 : Nat} {instr : InstrR}
    {st0 : AnimState}
    (hget : a.instrR[k]? = some instr)
    (hrep : instr.opcode &&& 128 ≠ 0)
    (hN : instr.operand = N)
    (hN1 : 1 ≤ N)
    (hd : instr.timing = d)
    (hT : T0 + d < 65536)
    (hsel : selectState (a.instrR.map (fun i => i.timing)) (T0 + d) 0 = k)
    (hrt : st0.rgbTimer = T0)
    (hrc : st0.repCounterRGB = 0)
    (hls : st0.lastStateRGB ≠ k) :
    iterO (fun st => rgbSection a (timerIncrement d st)) (N + 1) st0 =
      some { st0 with rgb := (applyRGBOpcode instr)^[N + 1] st0.rgb,
                      normalTimer := (st0.normalTimer + (N + 1) * d) % 65536,
                      repCounterRGB := 0, lastStateRGB := k,
                      rgbTimer := T0 + d } := by
  rw [iterO_succ_right,
      rgb_repeat_iter hget hrep hN hd hT hsel hrt hrc hls N hN1 (le_refl N)]
  simp only [Option.some_bind]
  rw [rgb_repeat_tick_last hget hrep hd hT hsel
    { st0 with rgb := (applyRGBOpcode instr)^[N] st0.rgb,
               normalTimer := (st0.normalTimer + N * d) % 65536,
               repCounterRGB := N + 1 - N, rgbTimer := T0 }
    rfl hls (show N + 1 - N ≠ 0 by omega) (show N + 1 - N - 1 = 0 by omega)]
  simp only [Function.iterate_succ_apply', add16_mod_left,
    Nat.succ_mul, ← Nat.add_assoc]

/-- C2: REPEAT semantics, for both timelines.  Whenever an instruction
`instr` at index k whose opcode includes REPEAT (bit 0x80) with operand
N >= 1 is first reached with the repetition counter at 0 (and the
instruction stays selected each tick, which at the per-instruction
cadence d = duration means the incremented timer T0 + d selects k), then
over the next ticks of duration d each:
  * on ticks 1..N the opcode effect is applied, last_instruction_index
    keeps its old value, and the elapsed-time accumulator is rewound by
    the instruction's duration (net effect: it stays at T0 despite the
    increments -- N rewinds in total);
  * on tick N+1 the effect is applied once more (N+1 applications in
    total), no rewind happens, and only then is last_instruction_index
    set to k,
so the instruction consumes (N+1)*d of virtual elapsed time while the
accumulator advances only by d.  The first conjunct covers the
linear-bank timeline (normalSection), the second the RGB timeline
(rgbSection); the other timeline's accumulator advances freely by i*d. -/
theorem anim_C2 :
    (∀ (a : Animation) (k N d T0 : Nat) (instr : InstrN) (st0 : AnimState),
       a.instrN[k]? = some instr →
       instr.opcode &&& 128 ≠ 0 →
       instr.operand = N → 1 ≤ N →
       instr.timing = d → T0 + d < 65536 →
       selectState (a.instrN.map (fun i => i.timing)) (T0 + d) 0 = k →
       st0.normalTimer = T0 → st0.repCounter = 0 → st0.lastState ≠ k →
       ((∀ i, 1 ≤ i → i ≤ N →
           iterO (fun st => normalSection a (timerIncrement d st)) i st0 =
             some { st0 with
                      led := (applyNormalOpcode instr)^[i] st0.led,
                      rgbTimer := (st0.rgbTimer + i * d) % 65536,
                      repCounter := N + 1 - i, normalTimer := T0 }) ∧
        iterO (fun st => normalSection a (timerIncrement d st)) (N + 1) st0 =
          some { st0 with
                   led := (applyNormalOpcode instr)^[N + 1] st0.led,
                   rgbTimer := (st0.rgbTimer + (N + 1) * d) % 65536,
                   repCounter := 0, lastState := k,
                   normalTimer := T0 + d })) ∧
    (∀ (a : Animation) (k N d T0 : Nat) (instr : InstrR) (st0 : AnimState),
       a.instrR[k]? = some instr →
       instr.opcode &&& 128 ≠ 0 →
       instr.operand = N → 1 ≤ N →
       instr.timing = d → T0 + d < 65536 →
       selectState (a.instrR.map (fun i => i.timing)) (T0 + d) 0 = k →
       st0.rgbTimer = T0 → st0.repCounterRGB = 0 → st0.lastStateRGB ≠ k →
       ((∀ i, 1 ≤ i → i ≤ N →
           iterO (fun st => rgbSection a (timerIncrement d st)) i st0 =
             some { st0 with
                      rgb := (applyRGBOpcode instr)^[i] st0.rgb,
                      normalTimer := (st0.normalTimer + i * d) % 65536,
                      repCounterRGB := N + 1 - i, rgbTimer := T0 }) ∧
        iterO (fun st => rgbSection a (timerIncrement d st)) (N + 1) st0 =
          some { st0 with
                   rgb := (applyRGBOpcode instr)^[N + 1] st0.rgb,
                   normalTimer := (st0.normalTimer + (N + 1) * d) % 65536,
                   repCounterRGB := 0, lastStateRGB := k,
                   rgbTimer := T0 + d })) := by
  constructor
  · intro a k N d T0 instr st0 hget hrep hN hN1 hd hT hsel hnt hrc hls
    exact ⟨normal_repeat_iter hget hrep hN hd hT hsel hnt hrc hls,
           normal_repeat_final hget hrep hN hN1 hd hT hsel hnt hrc hls⟩
  · intro a k N d T0 instr st0 hget hrep hN hN1 hd hT hsel hrt hrc hls
    exact ⟨rgb_repeat_iter hget hrep hN hd hT hsel hrt hrc hls,
           rgb_repeat_final hget hrep hN hN1 hd hT hsel hrt hrc hls⟩

theorem anim_C2_witness :
    (iterO (fun st => normalSection ⟨gasAnimation2, gasAnimation2RGB⟩
        (timerIncrement 115 st)) 3 (initState 0 1) =
      some { led := [9, 9, 9, 9, 9, 9, 9], rgb := [0, 0, 0, 0],
             normalTimer := 0, rgbTimer := 345, lastCall := 0,
             lastState := 255, repCounter := 2, lastStateRGB := 255,
             repCounterRGB := 0, animIndex := 1 }) ∧
    (iterO (fun st => normalSection ⟨gasAnimation2, gasAnimation2RGB⟩
        (timerIncrement 115 st)) 5 (initState 0 1) =
      some { led := [15, 15, 15, 15, 15, 15, 15], rgb := [0, 0, 0, 0],
             normalTimer := 115, rgbTimer := 575, lastCall := 0,
             lastState := 1, repCounter := 0, lastStateRGB := 255,
             repCounterRGB := 0, animIndex := 1 }) ∧
    (iterO (fun st => rgbSection ⟨gasAnimation2, gasAnimation2RGB⟩
        (timerIncrement 115 st)) 3 (initState 0 1) =
      some { led := [0, 0, 0, 0, 0, 0, 0], rgb := [9, 9, 9, 9],
             normalTimer := 345, rgbTimer := 0, lastCall := 0,
             lastState := 255, repCounter := 0, lastStateRGB := 255,
             repCounterRGB := 2, animIndex := 1 }) ∧
    (iterO (fun st => rgbSection ⟨gasAnimation2, gasAnimation2RGB⟩
        (timerIncrement 115 st)) 5 (initState 0 1) =
      some { led := [0, 0, 0, 0, 0, 0, 0], rgb := [15, 15, 15, 15],
             normalTimer := 575, rgbTimer := 115, lastCall := 0,
             lastState := 255, repCounter := 0, lastStateRGB := 1,
             repCounterRGB := 0, animIndex := 1 }) := by
  have hn := anim_C2.1 ⟨gasAnimation2, gasAnimation2RGB⟩ 1 4 115 0
    ⟨115, [3, 3, 3, 3, 3, 3, 3], 129, 4⟩ (initState 0 1)
    (by rfl) (by decide) rfl (by decide) rfl (by decide) (by decide)
    rfl rfl (by decide)
  have hr := anim_C2.2 ⟨gasAnimation2, gasAnimation2RGB⟩ 1 4 115 0
    ⟨115, [3, 3, 3, 3], 129, 4⟩ (initState 0 1)
    (by rfl) (by decide) rfl (by decide) rfl (by decide) (by decide)
    rfl rfl (by decide)
  exact ⟨(hn.1 3 (by decide) (by decide)).trans (by decide),
         hn.2.trans (by decide),
         (hr.1 3 (by decide) (by decide)).trans (by decide),
         hr.2.trans (by decide)⟩
